import Mathlib

/-!
Verification development for the zerox page-sequential completion pipeline
(py_zerox/pyzerox): the request builder `_prepare_messages`, the completion
adapter `completion` (both in models/modellitellm.py), the text normalizer
`format_markdown` (processor/text.py), and the system-prompt property of
`litellmmodel`.

Strings are modelled by Lean `String`; Python lists of role-tagged message
dicts by `List Message`; Python exceptions by `Except` / explicit error sums.
The external collaborators (image encoder, litellm transport) are passed in
as explicit arguments: the encoder as its result (`Except EncodingError
String`), the transport as a function from the built message list to a raw
provider response.
-/

namespace Zerox

/-- Role tag of a message dict, as used in `_prepare_messages`
(`"role": "system"` / `"role": "user"`). -/
inductive Role where
  | system
  | user
deriving DecidableEq

/-- One element of the structured user-message content list: the
`image_url` part built by `_prepare_messages` with the data URL of the
encoded page image. -/
inductive ContentPart where
  | image_url (url : String)
deriving DecidableEq

/-- Content payload of a message: plain text (system messages) or a list of
structured parts (the user image message). -/
inductive MessageContent where
  | text (s : String)
  | parts (ps : List ContentPart)
deriving DecidableEq

/-- One message dict of the request, as built by `_prepare_messages`. -/
structure Message where
  role : Role
  content : MessageContent
deriving DecidableEq

/-- Error raised by the external image encoder `encode_image_to_base64`
(processor/image.py, an external collaborator here). -/
structure EncodingError where
  message : String
deriving DecidableEq

/-- Prompts.DEFAULT_SYSTEM_PROMPT from constants/prompts.py, the Python
triple-quoted literal written out with its newlines and indentation. -/
def DEFAULT_SYSTEM_PROMPT : String :=
  "\n    Convert the following PDF page to markdown.\n    Return only the markdown with no explanation text.\n    Do not exclude any content from the page.\n    "

/-- Prompts.BOUNDING_BOX_PROMPT from constants/prompts.py. -/
def BOUNDING_BOX_PROMPT : String :=
  "\n    Convert the following PDF page to markdown.\n    Return only the markdown with no explanation text.\n    Do not exclude any content from the page.\n    Include the bounding box coordinates of any inline images.\n    "

/-- Content of the continuity system message of `_prepare_messages`
(modellitellm.py line 139): the Python f-string
`Markdown must maintain consistent formatting with the following page: \n\n """{prior_page}"""`. -/
def continuity_instruction (prior_page : String) : String :=
  "Markdown must maintain consistent formatting with the following page: \n\n \"\"\"" ++
    prior_page ++ "\"\"\""

/-- The first message of every request: the active system prompt. -/
def systemMessage (prompt : String) : Message :=
  { role := Role.system, content := MessageContent.text prompt }

/-- The optional second system message carrying the continuity instruction. -/
def continuityMessage (prior_page : String) : Message :=
  { role := Role.system, content := MessageContent.text (continuity_instruction prior_page) }

/-- The final user message carrying the base64-encoded page image as a data
URL, per `_prepare_messages` (modellitellm.py lines 146-156). -/
def imageMessage (base64_image : String) : Message :=
  { role := Role.user,
    content := MessageContent.parts
      [ContentPart.image_url ("data:image/png;base64," ++ base64_image)] }

/-- Embedding of `litellmmodel._prepare_messages` (modellitellm.py lines
112-159). The instance attribute `self._system_prompt` is the first
argument; the awaited result of the external `encode_image_to_base64` call
is passed as `encoded_image`. The code first builds the system message,
appends the continuity message when `maintain_format and prior_page` is
truthy (a Python string is truthy iff non-empty), then awaits the encoder:
an `EncodingError` therefore escapes before the user message is appended. -/
def prepare_messages (system_prompt : String) (maintain_format : Bool)
    (prior_page : String) (encoded_image : Except EncodingError String) :
    Except EncodingError (List Message) := do
  let messages : List Message := [systemMessage system_prompt]
  let messages :=
    if maintain_format && !prior_page.isEmpty then
      messages ++ [continuityMessage prior_page]
    else
      messages
  let base64_image ← encoded_image
  pure (messages ++ [imageMessage base64_image])

/-- Closed form of the message list `prepare_messages` returns on the
successful-encoding path. -/
def builtMessages (system_prompt : String) (maintain_format : Bool)
    (prior_page base64_image : String) : List Message :=
  [systemMessage system_prompt] ++
    (if maintain_format && !prior_page.isEmpty then [continuityMessage prior_page] else []) ++
    [imageMessage base64_image]

theorem prepare_messages_ok (sp : String) (mf : Bool) (pp b64 : String) :
    prepare_messages sp mf pp (Except.ok b64) =
      Except.ok (builtMessages sp mf pp b64) := by
  cases h : mf && !pp.isEmpty <;>
    simp [prepare_messages, builtMessages, h, Except.bind]

theorem prepare_messages_err (sp : String) (mf : Bool) (pp : String)
    (e : EncodingError) :
    prepare_messages sp mf pp (Except.error e) = Except.error e := by
  cases h : mf && !pp.isEmpty <;>
    simp [prepare_messages, h, Except.bind]

theorem builtMessages_cond_true (sp : String) (pp b64 : String)
    (h : (!pp.isEmpty) = true) :
    builtMessages sp true pp b64 =
      [systemMessage sp, continuityMessage pp, imageMessage b64] := by
  simp [builtMessages, h]

theorem builtMessages_cond_false (sp : String) (mf : Bool) (pp b64 : String)
    (h : (mf && !pp.isEmpty) = false) :
    builtMessages sp mf pp b64 = [systemMessage sp, imageMessage b64] := by
  simp [builtMessages, h]

theorem builtMessages_cond_true_of_and (sp : String) (mf : Bool) (pp b64 : String)
    (h : (mf && !pp.isEmpty) = true) :
    builtMessages sp mf pp b64 =
      [systemMessage sp, continuityMessage pp, imageMessage b64] := by
  simp [builtMessages, h]

/-- One bounding-box record of a provider response, as consumed by
`format_markdown` (processor/text.py): a base64 image string and its
coordinate data. The coordinate data is opaque provider JSON rendered into
the output by Python string interpolation, so it is modelled here by its
rendered string. -/
structure BoundingBox where
  image : String
  bounding_box : String
deriving DecidableEq

/-- Normalized completion result built by `litellmmodel.completion`
(models/types.py CompletionResponse). -/
structure CompletionResponse where
  content : String
  input_tokens : Nat
  output_tokens : Nat
  bounding_boxes : List BoundingBox
deriving DecidableEq

/-- The provider message dict of a raw litellm response. Absent keys are
`none`: `content` is read with a plain subscript (KeyError when absent),
`bounding_boxes` with `.get(..., [])` (defaults when absent). -/
structure RawMessage where
  content : Option String
  bounding_boxes : Option (List BoundingBox)
deriving DecidableEq

/-- One choice of a raw litellm response. -/
structure RawChoice where
  message : RawMessage
deriving DecidableEq

/-- The usage block of a raw litellm response; absent token fields are
`none` and make the subscript access in `completion` fail. -/
structure RawUsage where
  prompt_tokens : Option Nat
  completion_tokens : Option Nat
deriving DecidableEq

/-- A provider-shaped response of the external `litellm.acompletion`
transport. -/
structure RawResponse where
  choices : List RawChoice
  usage : RawUsage
deriving DecidableEq

/-- The field extraction `completion` performs inside its `try` block
(modellitellm.py lines 100-106):
`response["choices"][0]["message"]["content"]`,
`response["usage"]["prompt_tokens"]`, `response["usage"]["completion_tokens"]`,
and `response["choices"][0]["message"].get("bounding_boxes", [])`.
A missing choice or field raises (IndexError / KeyError), here an
`Except.error` carrying the cause description. -/
def parseResponse (response : RawResponse) : Except String CompletionResponse :=
  match response.choices.head? with
  | none => Except.error "IndexError: list index out of range"
  | some choice =>
    match choice.message.content with
    | none => Except.error "KeyError: content"
    | some content =>
      match response.usage.prompt_tokens with
      | none => Except.error "KeyError: prompt_tokens"
      | some input_tokens =>
        match response.usage.completion_tokens with
        | none => Except.error "KeyError: completion_tokens"
        | some output_tokens =>
          Except.ok
            { content := content
              input_tokens := input_tokens
              output_tokens := output_tokens
              bounding_boxes := choice.message.bounding_boxes.getD [] }

/-- Modelled from the spec: the constant `Messages.COMPLETION_ERROR`
(constants/messages.py) is not under src/. The spec requires every
transport-level failure to be re-raised as a single uniform completion
failure whose message embeds the original cause description. -/
def COMPLETION_ERROR_format (cause : String) : String :=
  "Error in completion response. Error: " ++ cause

/-- The error raised out of `litellmmodel.completion`: either the
`EncodingError` of the image encoder, which escapes before the `try` block,
or the uniform completion failure raised by its `except` clause. -/
inductive CompletionError where
  | encoding (e : EncodingError)
  | completion_failure (message : String)
deriving DecidableEq

/-- Embedding of `litellmmodel.completion` (modellitellm.py lines 74-110).
The external transport `litellm.acompletion` is passed in as a function of
the built message list. The second component of the result records the
outbound transport requests actually sent, in order: the code performs its
single `acompletion` call only after `_prepare_messages` succeeds, and its
`except Exception` clause wraps both transport errors and response-shape
errors into the uniform failure message. -/
def completion (system_prompt : String) (maintain_format : Bool)
    (prior_page : String) (encoded_image : Except EncodingError String)
    (transport : List Message → Except String RawResponse) :
    Except CompletionError CompletionResponse × List (List Message) :=
  match prepare_messages system_prompt maintain_format prior_page encoded_image with
  | Except.error e => (Except.error (CompletionError.encoding e), [])
  | Except.ok messages =>
    match (transport messages).bind parseResponse with
    | Except.error err =>
      (Except.error (CompletionError.completion_failure (COMPLETION_ERROR_format err)),
       [messages])
    | Except.ok response => (Except.ok response, [messages])

/-- Modelled from the spec: the regex constants `Patterns.MATCH_MARKDOWN_BLOCKS`
and `Patterns.MATCH_CODE_BLOCKS` (constants/patterns.py) are not under src/.
Per the spec, each unwrap step strips one layer of enclosing fence wrapping
when the whole string is wrapped in the fence pair, returning the inner
content unaltered, and is the identity otherwise. `stripEnclosed openF
closeF s` returns the inner content when `s` starts with `openF`, ends with
`closeF`, and is long enough that the two occurrences do not overlap. -/
def stripEnclosed (openF closeF s : String) : String :=
  if openF.data.isPrefixOf s.data && closeF.data.isSuffixOf s.data &&
      decide (openF.data.length + closeF.data.length ≤ s.data.length) then
    String.mk ((s.data.drop openF.data.length).take
      (s.data.length - openF.data.length - closeF.data.length))
  else
    s

/-- Modelled from the spec: the markdown-specific unwrap step of
`format_markdown`, one layer of an enclosing ```` ```markdown ````-fenced
block. -/
def stripMarkdownFence (s : String) : String :=
  stripEnclosed "```markdown\n" "\n```" s

/-- Modelled from the spec: the generic unwrap step of `format_markdown`,
one layer of an enclosing plain ```` ``` ````-fenced block. -/
def stripCodeFence (s : String) : String :=
  stripEnclosed "```\n" "\n```" s

/-- The markdown block `format_markdown` renders for one bounding box
(processor/text.py lines 15-18): the f-string
`![Image](data:image/png;base64,{image})\n\nBounding Box: {bounding_box}`. -/
def boxMarkdown (box : BoundingBox) : String :=
  "![Image](data:image/png;base64," ++ box.image ++ ")\n\nBounding Box: " ++
    box.bounding_box

/-- Embedding of `format_markdown` (processor/text.py lines 7-22): the
markdown-fence unwrap, then the generic-fence unwrap on its result, then,
when the bounding-box list is truthy (non-empty), the box blocks joined by
blank lines and appended behind a blank line. -/
def format_markdown (text : String) (bounding_boxes : List BoundingBox) : String :=
  let formatted_markdown := stripMarkdownFence text
  let formatted_markdown := stripCodeFence formatted_markdown
  if bounding_boxes.isEmpty then
    formatted_markdown
  else
    formatted_markdown ++ "\n\n" ++
      String.intercalate "\n\n" (bounding_boxes.map boxMarkdown)

/-- Modelled from the spec: the constant `Messages.CUSTOM_SYSTEM_PROMPT_WARNING`
(constants/messages.py) is not under src/. The spec requires overriding the
system prompt to surface a non-fatal warning to the caller. -/
def CUSTOM_SYSTEM_PROMPT_WARNING : String :=
  "Custom system prompt was provided which overrides the default system prompt"

/-- The full warning text emitted by the `system_prompt` setter
(modellitellm.py line 52): the f-string
`{Messages.CUSTOM_SYSTEM_PROMPT_WARNING}. Default prompt for zerox is:\n {DEFAULT_SYSTEM_PROMPT}`. -/
def system_prompt_warning : String :=
  CUSTOM_SYSTEM_PROMPT_WARNING ++ ". Default prompt for zerox is:\n " ++
    DEFAULT_SYSTEM_PROMPT

/-- Python attribute state relevant to `litellmmodel._system_prompt`: the
class attribute (set once at class creation, modellitellm.py line 20) and
the per-instance attribute written by the `system_prompt` setter, `none`
while the instance has not overridden. Instances are identified by a
natural number. -/
structure PromptWorld where
  class_system_prompt : String
  instance_overrides : Nat → Option String

/-- The world at class-creation time: `_system_prompt = DEFAULT_SYSTEM_PROMPT`
at class level, no instance overrides. -/
def PromptWorld.init : PromptWorld :=
  { class_system_prompt := DEFAULT_SYSTEM_PROMPT
    instance_overrides := fun _ => none }

/-- Embedding of the `system_prompt` property getter (modellitellm.py lines
41-44): Python attribute lookup on `self._system_prompt` reads the instance
attribute when present, otherwise the class attribute. -/
def PromptWorld.get_system_prompt (w : PromptWorld) (i : Nat) : String :=
  (w.instance_overrides i).getD w.class_system_prompt

/-- Embedding of the `system_prompt` property setter (modellitellm.py lines
46-53): `warnings.warn(...)` then `self._system_prompt = prompt`, which
writes the instance attribute of instance `i` and leaves the class
attribute and every other instance untouched. The emitted warning text is
returned alongside the new world. -/
def PromptWorld.set_system_prompt (w : PromptWorld) (i : Nat) (prompt : String) :
    PromptWorld × String :=
  ({ w with
      instance_overrides := fun j => if j = i then some prompt else w.instance_overrides j },
   system_prompt_warning)

theorem stripEnclosed_wrap (o c inner : String) :
    stripEnclosed o c (o ++ inner ++ c) = inner := by
  have hdata : (o ++ inner ++ c).data = o.data ++ (inner.data ++ c.data) := by
    simp
  have hpre : o.data.isPrefixOf (o ++ inner ++ c).data = true := by
    rw [List.isPrefixOf_iff_prefix, hdata]
    exact List.prefix_append _ _
  have hsuf : c.data.isSuffixOf (o ++ inner ++ c).data = true := by
    rw [List.isSuffixOf_iff_suffix]
    have h2 : (o ++ inner ++ c).data = (o.data ++ inner.data) ++ c.data := by simp
    rw [h2]
    exact List.suffix_append _ _
  have hlen : o.data.length + c.data.length ≤ (o ++ inner ++ c).data.length := by
    simp only [String.data_append, List.length_append]
    omega
  have hk : (o ++ inner ++ c).data.length - o.data.length - c.data.length
      = inner.data.length := by
    simp only [String.data_append, List.length_append]
    omega
  have hcond : (o.data.isPrefixOf (o ++ inner ++ c).data &&
      (c.data.isSuffixOf (o ++ inner ++ c).data &&
        decide (o.data.length + c.data.length ≤ (o ++ inner ++ c).data.length))) = true := by
    rw [hpre, hsuf, decide_eq_true hlen]
    rfl
  unfold stripEnclosed
  rw [Bool.and_assoc, hcond, if_pos rfl, hk, hdata, List.drop_left' rfl,
    List.take_left' rfl]

theorem stripEnclosed_not_prefix (o c s : String)
    (h : o.data.isPrefixOf s.data = false) :
    stripEnclosed o c s = s := by
  simp [stripEnclosed, h]

theorem fence_not_prefix (s : String)
    (h : ("```".data.isPrefixOf s.data) = false) :
    ("```markdown\n".data.isPrefixOf s.data) = false ∧
      ("```\n".data.isPrefixOf s.data) = false := by
  rw [Bool.eq_false_iff] at h
  constructor <;>
  · rw [Bool.eq_false_iff]
    intro hpre
    rw [List.isPrefixOf_iff_prefix] at hpre
    exact h (List.isPrefixOf_iff_prefix.mpr (List.IsPrefix.trans (by decide) hpre))

theorem cond_iff (mf : Bool) (pp : String) :
    (mf && !pp.isEmpty) = true ↔ (mf = true ∧ pp ≠ "") := by
  constructor
  · intro h
    rw [Bool.and_eq_true] at h
    refine ⟨h.1, fun hpp => ?_⟩
    subst hpp
    exact absurd h.2 (by decide)
  · rintro ⟨h1, h2⟩
    subst h1
    have hE : pp.isEmpty = false := by
      cases hE : pp.isEmpty
      · rfl
      · exact absurd ((String.isEmpty_iff pp).mp hE) h2
    rw [Bool.and_eq_true, hE]
    exact ⟨rfl, rfl⟩

/-- C1: for every system prompt, image encoding, boolean `maintain_format`
and string `prior_page`, `_prepare_messages` returns a message list whose
first entry is the active system prompt with role system, whose last entry
is the user entry carrying the page image, which has three entries (the
middle one being the continuity instruction) iff `maintain_format` is true
and `prior_page` is non-empty, and which has no entries beyond these. -/
theorem prepare_messages_invariant (sp : String) (mf : Bool) (pp b64 : String) :
    prepare_messages sp mf pp (Except.ok b64) = Except.ok (builtMessages sp mf pp b64) ∧
    (builtMessages sp mf pp b64).head? = some (systemMessage sp) ∧
    (builtMessages sp mf pp b64).getLast? = some (imageMessage b64) ∧
    ((builtMessages sp mf pp b64).length = 3 ↔ (mf = true ∧ pp ≠ "")) ∧
    ((builtMessages sp mf pp b64).length = 2 ∨ (builtMessages sp mf pp b64).length = 3) := by
  have ht := builtMessages_cond_true_of_and sp mf pp b64
  have hf := builtMessages_cond_false sp mf pp b64
  refine ⟨prepare_messages_ok sp mf pp b64, ?_, ?_, ?_, ?_⟩ <;>
    cases hc : mf && !pp.isEmpty
  · rw [hf hc]
    rfl
  · rw [ht hc]
    rfl
  · rw [hf hc]
    rfl
  · rw [ht hc]
    rfl
  · rw [hf hc]
    exact iff_of_false (by simp) (fun hr => by simp [(cond_iff mf pp).mpr hr] at hc)
  · rw [ht hc]
    exact iff_of_true rfl ((cond_iff mf pp).mp hc)
  · rw [hf hc]
    exact Or.inl rfl
  · rw [ht hc]
    exact Or.inr rfl

/-- C2: with `maintain_format` true and a non-empty `prior_page` (written
as the string of a head character and a tail), the request carries the
continuity system message as its second entry, its text embeds `prior_page`
verbatim as a literal triple-quoted block, and with an empty `prior_page`
the request carries no continuity entry at all. -/
theorem continuity_verbatim (sp b64 : String) (c : Char) (cs : List Char) :
    prepare_messages sp true (String.mk (c :: cs)) (Except.ok b64) =
      Except.ok [systemMessage sp, continuityMessage (String.mk (c :: cs)),
        imageMessage b64] ∧
    continuity_instruction (String.mk (c :: cs)) =
      "Markdown must maintain consistent formatting with the following page: \n\n \"\"\"" ++
        String.mk (c :: cs) ++ "\"\"\"" ∧
    List.IsInfix (c :: cs) (continuity_instruction (String.mk (c :: cs))).data ∧
    prepare_messages sp true "" (Except.ok b64) =
      Except.ok [systemMessage sp, imageMessage b64] := by
  have hne : (!(String.mk (c :: cs)).isEmpty) = true := by
    cases hE : (String.mk (c :: cs)).isEmpty
    · rfl
    · exact absurd (congrArg String.data ((String.isEmpty_iff _).mp hE))
        (by simp)
  refine ⟨?_, rfl, ?_, ?_⟩
  · rw [prepare_messages_ok,
      builtMessages_cond_true sp (String.mk (c :: cs)) b64 hne]
  · exact ⟨"Markdown must maintain consistent formatting with the following page: \n\n \"\"\"".data,
      "\"\"\"".data, by simp [continuity_instruction]⟩
  · rw [prepare_messages_ok, builtMessages_cond_false sp true "" b64 rfl]

/-- C3: every failure of the transport call or of reading the provider
response shape inside `completion` is caught and re-raised as the single
uniform completion-failure kind whose message embeds the original cause
description; exactly one transport request is sent (no retry), and the
cause text is preserved inside the failure message. -/
theorem completion_failure_uniform (sp : String) (mf : Bool) (pp b64 err : String)
    (transport : List Message → Except String RawResponse)
    (h : (transport (builtMessages sp mf pp b64)).bind parseResponse =
      Except.error err) :
    completion sp mf pp (Except.ok b64) transport =
      (Except.error (CompletionError.completion_failure (COMPLETION_ERROR_format err)),
        [builtMessages sp mf pp b64]) ∧
    List.IsInfix err.data (COMPLETION_ERROR_format err).data := by
  constructor
  · simp only [completion, prepare_messages_ok, h]
  · exact ⟨"Error in completion response. Error: ".data, [],
      by simp [COMPLETION_ERROR_format]⟩

theorem completion_failure_uniform_witness :
    ((fun _ => (Except.error "network down" : Except String RawResponse))
        (builtMessages "s" false "" "b")).bind parseResponse =
      Except.error "network down" ∧
    (completion "s" false "" (Except.ok "b") (fun _ => Except.error "network down") =
      (Except.error (CompletionError.completion_failure
        (COMPLETION_ERROR_format "network down")), [builtMessages "s" false "" "b"]) ∧
    List.IsInfix "network down".data (COMPLETION_ERROR_format "network down").data) :=
  ⟨rfl, completion_failure_uniform "s" false "" "b" "network down"
    (fun _ => Except.error "network down") rfl⟩

/-- C8: when the image encoder fails, `completion` returns the
`EncodingError` unchanged (not wrapped into the uniform completion
failure), and no transport request is sent: the error escapes before the
transport call, whatever the transport would have answered. -/
theorem encoding_error_propagates (sp : String) (mf : Bool) (pp : String)
    (e : EncodingError) (transport : List Message → Except String RawResponse) :
    completion sp mf pp (Except.error e) transport =
      (Except.error (CompletionError.encoding e), []) := by
  unfold completion
  rw [prepare_messages_err]

/-- C4: `format_markdown` applies the markdown-specific unwrap first and
the generic unwrap on its result; each unwrap returns the inner content of
a wrapped input unaltered; and on the input "```markdown\n# Title\n```"
the result is exactly "# Title". -/
theorem format_markdown_unwrap_order (x inner : String) :
    format_markdown x [] = stripCodeFence (stripMarkdownFence x) ∧
    stripMarkdownFence ("```markdown\n" ++ inner ++ "\n```") = inner ∧
    stripCodeFence ("```\n" ++ inner ++ "\n```") = inner ∧
    format_markdown "```markdown\n# Title\n```" [] = "# Title" :=
  ⟨rfl, stripEnclosed_wrap _ _ _, stripEnclosed_wrap _ _ _, by decide⟩

/-- C5: with a non-empty bounding-box list, `format_markdown` appends,
behind a blank line, the box blocks joined by blank lines, each block being
the inline image reference built from the base64 data of the box followed
by its coordinate line; in particular on content "body" and the single box
(image "AAAA", coordinates rendered "[0,0,10,10]") the result is exactly
"body\n\n![Image](data:image/png;base64,AAAA)\n\nBounding Box: [0,0,10,10]". -/
theorem format_markdown_boxes (x : String) (b : BoundingBox) (bs : List BoundingBox) :
    format_markdown x (b :: bs) =
      stripCodeFence (stripMarkdownFence x) ++ "\n\n" ++
        String.intercalate "\n\n" ((b :: bs).map boxMarkdown) ∧
    boxMarkdown b =
      "![Image](data:image/png;base64," ++ b.image ++ ")\n\nBounding Box: " ++
        b.bounding_box ∧
    format_markdown "body" [{ image := "AAAA", bounding_box := "[0,0,10,10]" }] =
      "body\n\n![Image](data:image/png;base64,AAAA)\n\nBounding Box: [0,0,10,10]" :=
  ⟨rfl, rfl, by decide⟩

/-- C6: `format_markdown` with an empty box list is idempotent on content
that carries no fence wrapping (content on which both unwrap steps are the
identity). -/
theorem format_markdown_idempotent (x : String)
    (h1 : stripMarkdownFence x = x) (h2 : stripCodeFence x = x) :
    format_markdown (format_markdown x []) [] = format_markdown x [] := by
  have hx : format_markdown x [] = x := by
    show stripCodeFence (stripMarkdownFence x) = x
    rw [h1, h2]
  rw [hx]
  exact hx

theorem format_markdown_idempotent_witness :
    stripMarkdownFence "hello" = "hello" ∧ stripCodeFence "hello" = "hello" ∧
      format_markdown (format_markdown "hello" []) [] = format_markdown "hello" [] :=
  ⟨by decide, by decide,
    format_markdown_idempotent "hello" (by decide) (by decide)⟩

/-- C7: `format_markdown` is a total pure function of its arguments, and on
an input carrying no fence markers (here: not starting with a fence opener)
both unwrap steps, and hence the whole normalization with no boxes, are the
identity transform. -/
theorem format_markdown_total_on_unfenced (x : String)
    (h : ("```".data.isPrefixOf x.data) = false) :
    stripMarkdownFence x = x ∧ stripCodeFence x = x ∧ format_markdown x [] = x := by
  obtain ⟨h1, h2⟩ := fence_not_prefix x h
  have e1 : stripMarkdownFence x = x := stripEnclosed_not_prefix "```markdown\n" "\n```" x h1
  have e2 : stripCodeFence x = x := stripEnclosed_not_prefix "```\n" "\n```" x h2
  refine ⟨e1, e2, ?_⟩
  show stripCodeFence (stripMarkdownFence x) = x
  rw [e1, e2]

theorem format_markdown_total_on_unfenced_witness :
    ("```".data.isPrefixOf "# plain text".data) = false ∧
      (stripMarkdownFence "# plain text" = "# plain text" ∧
        stripCodeFence "# plain text" = "# plain text" ∧
        format_markdown "# plain text" [] = "# plain text") :=
  ⟨by decide, format_markdown_total_on_unfenced "# plain text" (by decide)⟩

set_option maxRecDepth 8192 in
/-- C9: assigning any prompt through the `system_prompt` setter surfaces
the non-empty warning text and still performs the override: afterwards the
getter returns the new prompt and a request built by `_prepare_messages`
from it carries it as the first system message. -/
theorem system_prompt_override_effective (w : PromptWorld) (i : Nat)
    (p pp b64 : String) (mf : Bool) :
    (w.set_system_prompt i p).2 = system_prompt_warning ∧
    system_prompt_warning.isEmpty = false ∧
    (w.set_system_prompt i p).1.get_system_prompt i = p ∧
    (prepare_messages ((w.set_system_prompt i p).1.get_system_prompt i) mf pp
        (Except.ok b64)).map List.head? =
      Except.ok (some (systemMessage p)) := by
  have hget : (w.set_system_prompt i p).1.get_system_prompt i = p := by
    simp [PromptWorld.set_system_prompt, PromptWorld.get_system_prompt]
  refine ⟨rfl, rfl, hget, ?_⟩
  rw [hget, prepare_messages_ok]
  cases hc : mf && !pp.isEmpty
  · rw [builtMessages_cond_false p mf pp b64 hc]
    rfl
  · rw [builtMessages_cond_true_of_and p mf pp b64 hc]
    rfl

/-- C10: the `system_prompt` setter writes a per-instance attribute that
shadows the class-level default: after overriding instance `i`, the class
attribute is unchanged (still the default when starting from the initial
world) and the prompt observed by any other instance `j` is unchanged. -/
theorem system_prompt_per_instance (w : PromptWorld) (i j : Nat) (p : String)
    (h : j ≠ i) :
    (w.set_system_prompt i p).1.class_system_prompt = w.class_system_prompt ∧
    (PromptWorld.init.set_system_prompt i p).1.class_system_prompt =
      DEFAULT_SYSTEM_PROMPT ∧
    (w.set_system_prompt i p).1.get_system_prompt j = w.get_system_prompt j := by
  refine ⟨rfl, rfl, ?_⟩
  simp [PromptWorld.set_system_prompt, PromptWorld.get_system_prompt, h]

theorem system_prompt_per_instance_witness :
    (1 : Nat) ≠ 0 ∧
    ((PromptWorld.init.set_system_prompt 0 "custom").1.class_system_prompt =
        PromptWorld.init.class_system_prompt ∧
      (PromptWorld.init.set_system_prompt 0 "custom").1.class_system_prompt =
        DEFAULT_SYSTEM_PROMPT ∧
      (PromptWorld.init.set_system_prompt 0 "custom").1.get_system_prompt 1 =
        PromptWorld.init.get_system_prompt 1) :=
  ⟨by decide, system_prompt_per_instance PromptWorld.init 0 1 "custom" (by decide)⟩

end Zerox
